import Mathlib

/-!
# Verification of the lldap authentication core

Shallow embedding of `src/infra/auth_service.rs` and `src/domain/sql_tables.rs`,
with theorems settling the specification claims about the token lifecycle
(issuance, verification, expiry, revocation), the refresh/logout protocol
handlers, the cookie-to-header middleware, and the SQL schema's referential
integrity.

Conventions of the embedding:
* Instants (`chrono::DateTime<Utc>`) are `Int` nanoseconds since the epoch;
  `chrono::Duration::days 1` is the constant `oneDayNanos`.
* `Utc::now()` is modelled by passing each clock reading as an explicit
  argument, in the order the source performs the reads.
* External cryptographic primitives (HMAC-SHA512 signing via the `jwt`/`hmac`
  crates, `std::collections::hash_map::DefaultHasher`) are modelled as concrete
  deterministic functions; no theorem below depends on their internals beyond
  determinism.
* Fallible backend calls (`TcpBackendHandler`) are an explicit record of
  functions returning `Except DomainError _`; each handler also returns the
  ordered list of backend calls it performed, so that "no backend call is made"
  is a provable statement.
-/

namespace Lldap

/-- One day in nanoseconds: `chrono::Duration::days(1)` at the nanosecond
precision of `DateTime<Utc>`. -/
def oneDayNanos : Int := 86400 * 1000000000

/-! ## Token codec (`create_jwt`, `VerifyWithKey`) -/

/-- `jwt::AlgorithmType` (only the variants this code touches; the header
default is `Hs256`, the source overrides it to `Hs512`). -/
inductive AlgorithmType
  | Hs256
  | Hs512
deriving DecidableEq, Repr

/-- `jwt::Header`, reduced to the one field the source sets. -/
structure JwtHeader where
  algorithm : AlgorithmType
deriving DecidableEq, Repr

/-- `JWTClaims` from `domain/handler.rs`: expiry, issued-at, subject, group
set. The Rust `HashSet<String>` is a `Finset String`. -/
structure JWTClaims where
  exp : Int
  iat : Int
  user : String
  groups : Finset String
deriving DecidableEq

/-- Deterministic 64-bit string hash; stands in for byte-level hashing of
external collaborators. -/
def strHash (s : String) : Nat :=
  s.toList.foldl (fun a c => (a * 131 + c.toNat) % (2 ^ 64)) 7

/-- Models the external serialize-then-HMAC-SHA512 signing step of the `jwt`
crate (`SignWithKey`): an arbitrary deterministic function of the key and the
token content. The theorems below use only that verification recomputes this
same function. -/
def signToken (key : Nat) (h : JwtHeader) (c : JWTClaims) : Nat :=
  (key * 3 + strHash c.user * 5 + (c.groups.sum fun g => strHash g) * 7 +
    c.exp.natAbs * 11 + c.iat.natAbs * 13 +
    (if h.algorithm = AlgorithmType.Hs512 then 17 else 19)) % (2 ^ 64)

/-- `jwt::Token<jwt::Header, JWTClaims, Signed>`: a structured token carrying
its header, claims and signature. -/
structure SignedToken where
  header : JwtHeader
  claims : JWTClaims
  signature : Nat
deriving DecidableEq

/-- Models `DefaultHasher` applied to the token's string form
(`credentials.token().hash(&mut s)` in `token_validator`): a deterministic
64-bit hash of the token. -/
def jwtHash (t : SignedToken) : Nat :=
  (strHash t.claims.user * 3 + (t.claims.groups.sum fun g => strHash g) * 5 +
    t.claims.exp.natAbs * 7 + t.claims.iat.natAbs * 11 + t.signature * 13) % (2 ^ 64)

/-- The token's serialized string (`token.as_str()`), used as response body
and cookie value. -/
def SignedToken.as_str (t : SignedToken) : String :=
  toString (jwtHash t) ++ "." ++ toString t.signature

/-- `create_jwt` (auth_service.rs:32-44). The source reads the clock twice:
`exp = Utc::now() + Duration::days(1)` first (reading `now1`), then
`iat = Utc::now()` (reading `now2`). -/
def create_jwt (key : Nat) (user : String) (groups : Finset String)
    (now1 now2 : Int) : SignedToken :=
  let claims : JWTClaims :=
    { exp := now1 + oneDayNanos
      iat := now2
      user := user
      groups := groups }
  let header : JwtHeader := { algorithm := AlgorithmType.Hs512 }
  { header := header, claims := claims, signature := signToken key header claims }

/-- `VerifyWithKey::verify_with_key` of the `jwt` crate: recompute the MAC over
the token's content and compare with the embedded signature; on match return
the claims, otherwise fail. -/
def verify_with_key (key : Nat) (t : SignedToken) : Option JWTClaims :=
  if t.signature = signToken key t.header t.claims then some t.claims else none

/-! ## Authorization guard (`token_validator`) -/

/-- Outcome of the guard: pass the request on to the handler, or reject with
an HTTP status and reason (`ErrorUnauthorized` carries status 401). -/
inductive GuardOutcome
  | proceed
  | reject (status : Nat) (reason : String)
deriving DecidableEq

/-- The process-wide auth state the guard consults: the signing key and the
in-memory revocation registry (`jwt_blacklist: RwLock<HashSet<u64>>`). -/
structure AuthState where
  jwt_key : Nat
  jwt_blacklist : Finset Nat
deriving DecidableEq

/-- `token_validator` (auth_service.rs:268-300): verify the signature
(`Invalid JWT`), then expiry (`Expired JWT`), then the revocation registry
(`JWT was logged out`), then membership in `lldap_admin`. -/
def token_validator (state : AuthState) (credentials : SignedToken)
    (now : Int) : GuardOutcome :=
  match verify_with_key state.jwt_key credentials with
  | none => .reject 401 "Invalid JWT"
  | some claims =>
    if claims.exp < now then
      .reject 401 "Expired JWT"
    else if jwtHash credentials ∈ state.jwt_blacklist then
      .reject 401 "JWT was logged out"
    else if "lldap_admin" ∈ claims.groups then
      .proceed
    else
      .reject 401 "JWT error: User is not in group lldap_admin"

/-! ## HTTP responses and cookies -/

/-- A cookie as built by `Cookie::build(..).max_age(..).path(..)
.http_only(true).same_site(SameSite::Strict).finish()`. Max-age is in
seconds (`time::Duration`). -/
structure CookieSpec where
  name : String
  value : String
  maxAgeSeconds : Int
  path : String
  httpOnly : Bool
  sameSiteStrict : Bool
deriving DecidableEq

/-- An `HttpResponse`: status, body, and the cookies it sets. -/
structure HttpResp where
  status : Nat
  body : String
  cookies : List CookieSpec
deriving DecidableEq

/-- Modelled from the spec: `DomainError` (src/domain/handler.rs, not in
scope). §7 distinguishes authentication failures (mapped to a 401-class
response with a human-readable reason) from backend failures (mapped to a
generic error response). -/
inductive DomainError
  | authenticationError (msg : String)
  | backendError (msg : String)
deriving DecidableEq

/-- Modelled from the spec: `error_to_http_response`
(src/infra/tcp_server.rs, not in scope). §7: authentication failure → 401
with the reason; backend failure → generic error response. Neither branch
sets a cookie. -/
def error_to_http_response : DomainError → HttpResp
  | .authenticationError msg => { status := 401, body := msg, cookies := [] }
  | .backendError msg => { status := 500, body := msg, cookies := [] }

/-! ## Backend contract and call traces -/

/-- The backend operations the three handlers consume
(`TcpBackendHandler`/`BackendHandler`), as an oracle record. The second
component of `create_refresh_token`'s result is a `chrono::Duration` validity
window, modelled as whole seconds (its sub-day precision is what matters to
the cookie max-age computation). -/
structure ChronoDuration where
  secs : Int
deriving DecidableEq

/-- `chrono::Duration::num_days`: whole days, `i64` division truncating
toward zero. -/
def ChronoDuration.num_days (d : ChronoDuration) : Int :=
  d.secs.tdiv 86400

structure Backend where
  bind : String → String → Except DomainError Unit
  get_user_groups : String → Except DomainError (Finset String)
  create_refresh_token : String → Except DomainError (String × ChronoDuration)
  check_token : Nat → String → Except DomainError Bool
  delete_refresh_token : Nat → Except DomainError Unit
  blacklist_jwts : String → Except DomainError (List Nat)

/-- One backend invocation, recorded in the order the handler performs it. -/
inductive BackendCall
  | bindCall (user : String)
  | getUserGroups (user : String)
  | createRefreshToken (user : String)
  | checkToken (hash : Nat) (user : String)
  | deleteRefreshToken (hash : Nat)
  | blacklistJwts (user : String)
deriving DecidableEq

/-! ## Refresh-token cookie parsing -/

/-- `str::split_once`: split at the first occurrence of the delimiter. -/
def splitOnceAux (d : Char) : List Char → List Char → Option (List Char × List Char)
  | [], _ => none
  | c :: rest, acc => if c = d then some (acc.reverse, rest) else splitOnceAux d rest (c :: acc)

def split_once (s : String) (d : Char) : Option (String × String) :=
  match splitOnceAux d s.toList [] with
  | none => none
  | some (a, b) => some (String.mk a, String.mk b)

/-- Models `DefaultHasher` applied to the refresh-token string
(`token.hash(&mut s); s.finish()`): a deterministic 64-bit hash. -/
def defaultHash (s : String) : Nat := (strHash s * 2654435761) % (2 ^ 64)

/-- `get_refresh_token_from_cookie` (auth_service.rs:46-63): absent cookie →
401 "Missing refresh token"; no `+` in the value → 401 "Invalid refresh
token"; otherwise the hash of the token part and the username part. -/
def get_refresh_token_from_cookie (cookie : Option String) :
    Except HttpResp (Nat × String) :=
  match cookie with
  | none => .error { status := 401, body := "Missing refresh token", cookies := [] }
  | some t =>
    match split_once t '+' with
    | none => .error { status := 401, body := "Invalid refresh token", cookies := [] }
    | some (token, u) => .ok (defaultHash token, u)

/-! ## Session protocol handlers -/

/-- The `token` cookie attached to successful authorize/refresh responses:
value the token string, `max_age(1.days())`, path `/api`, http-only, strict
same-site. -/
def tokenCookie (value : String) : CookieSpec :=
  { name := "token", value := value, maxAgeSeconds := 86400, path := "/api"
    httpOnly := true, sameSiteStrict := true }

/-- `get_refresh` (auth_service.rs:65-109). `cookie` is the request's
`refresh_token` cookie; `now1`/`now2` are the two clock readings `create_jwt`
performs on the success path. Returns the response and the ordered backend
calls made. -/
def get_refresh (backend : Backend) (jwt_key : Nat) (cookie : Option String)
    (now1 now2 : Int) : HttpResp × List BackendCall :=
  match get_refresh_token_from_cookie cookie with
  | .error http_response => (http_response, [])
  | .ok (refresh_token_hash, user) =>
    match backend.check_token refresh_token_hash user with
    | .error e => (error_to_http_response e, [.checkToken refresh_token_hash user])
    | .ok found =>
      if found then
        match backend.get_user_groups user with
        | .error e =>
          (error_to_http_response e,
            [.checkToken refresh_token_hash user, .getUserGroups user])
        | .ok groups =>
          let token := create_jwt jwt_key user groups now1 now2
          ({ status := 200, body := token.as_str
             cookies := [tokenCookie token.as_str] },
            [.checkToken refresh_token_hash user, .getUserGroups user])
      else
        (error_to_http_response (.authenticationError "Invalid refresh token"),
          [.checkToken refresh_token_hash user])

/-- A cookie cleared at logout: empty value, `max_age(0.days())`. -/
def clearedCookie (name path : String) : CookieSpec :=
  { name := name, value := "", maxAgeSeconds := 0, path := path
    httpOnly := true, sameSiteStrict := true }

/-- `post_logout` (auth_service.rs:111-162). Returns the response, the
updated revocation registry, and the ordered backend calls made. -/
def post_logout (backend : Backend) (jwt_blacklist : Finset Nat)
    (cookie : Option String) : HttpResp × Finset Nat × List BackendCall :=
  match get_refresh_token_from_cookie cookie with
  | .error http_response => (http_response, jwt_blacklist, [])
  | .ok (refresh_token_hash, user) =>
    match backend.delete_refresh_token refresh_token_hash with
    | .error e =>
      (error_to_http_response e, jwt_blacklist, [.deleteRefreshToken refresh_token_hash])
    | .ok _ =>
      match backend.blacklist_jwts user with
      | .error e =>
        (error_to_http_response e, jwt_blacklist,
          [.deleteRefreshToken refresh_token_hash, .blacklistJwts user])
      | .ok new_blacklisted_jwts =>
        ({ status := 200, body := ""
           cookies := [clearedCookie "token" "/api", clearedCookie "refresh_token" "/auth"] },
          new_blacklisted_jwts.foldl (fun s jwt => insert jwt s) jwt_blacklist,
          [.deleteRefreshToken refresh_token_hash, .blacklistJwts user])

/-- `post_authorize` (auth_service.rs:164-208). `name`/`password` are the
bind request; `now1`/`now2` the clock readings of `create_jwt`. The refresh
cookie's max-age is `max_age.num_days().days()`: the backend window truncated
to whole days, re-expressed in seconds. -/
def post_authorize (backend : Backend) (jwt_key : Nat) (name password : String)
    (now1 now2 : Int) : HttpResp × List BackendCall :=
  match backend.bind name password with
  | .error e => (error_to_http_response e, [.bindCall name])
  | .ok _ =>
    match backend.get_user_groups name with
    | .error e => (error_to_http_response e, [.bindCall name, .getUserGroups name])
    | .ok groups =>
      match backend.create_refresh_token name with
      | .error e =>
        (error_to_http_response e,
          [.bindCall name, .getUserGroups name, .createRefreshToken name])
      | .ok (refresh_token, max_age) =>
        let token := create_jwt jwt_key name groups now1 now2
        ({ status := 200, body := token.as_str
           cookies :=
            [tokenCookie token.as_str,
              { name := "refresh_token", value := refresh_token ++ "+" ++ name
                maxAgeSeconds := max_age.num_days * 86400, path := "/auth"
                httpOnly := true, sameSiteStrict := true }] },
          [.bindCall name, .getUserGroups name, .createRefreshToken name])

/-! ## Cookie-to-header middleware (`CookieToHeaderTranslator`) -/

/-- An inbound `ServiceRequest`, reduced to what the translator touches:
its cookies and its headers (header names normalized to lowercase, as header
lookup is case-insensitive). -/
structure SvcRequest where
  cookies : List (String × String)
  headers : List (String × String)
deriving DecidableEq

/-- `req.cookie(name)`: the value of the first cookie with that name. -/
def SvcRequest.cookie (req : SvcRequest) (name : String) : Option String :=
  (req.cookies.find? (fun c => c.1 == name)).map (fun c => c.2)

/-- Header lookup: the value of the first header with that name. -/
def headerGet (headers : List (String × String)) (name : String) : Option String :=
  (headers.find? (fun h => h.1 == name)).map (fun h => h.2)

/-- `HeaderMap::insert`: sets the header to the single given value, removing
any previous value under that name. -/
def headersInsert (headers : List (String × String)) (name value : String) :
    List (String × String) :=
  (name, value) :: headers.filter (fun h => h.1 != name)

/-- Models `actix_http::header::HeaderValue::from_str` (external crate): a
string is a valid header value iff every byte is visible-or-high (≥ 32 and
not DEL) or a horizontal tab. Characters ≥ 128 encode to UTF-8 bytes that are
all ≥ 128, hence valid, so the check factors through characters. -/
def isValidHeaderValue (s : String) : Bool :=
  s.toList.all (fun c => c = '\t' || (decide (32 ≤ c.toNat) && decide (c.toNat ≠ 127)))

/-- Result of the middleware `call`: forward the (possibly modified) request
to the inner service, or short-circuit with an error response
(`ErrorBadRequest` carries status 400). -/
inductive TranslatorResult
  | forward (req : SvcRequest)
  | shortCircuit (resp : HttpResp)
deriving DecidableEq

/-- `CookieToHeaderTranslator::call` (auth_service.rs:248-266): if a `token`
cookie is present and `Bearer <value>` is a valid header value, insert it as
the `authorization` header and forward; if present but invalid, short-circuit
with 400 "Invalid token cookie"; if absent, forward unchanged. -/
def cookieToHeaderCall (req : SvcRequest) : TranslatorResult :=
  match req.cookie "token" with
  | none => .forward req
  | some v =>
    if isValidHeaderValue ("Bearer " ++ v) then
      .forward { req with headers := headersInsert req.headers "authorization" ("Bearer " ++ v) }
    else
      .shortCircuit { status := 400, body := "Invalid token cookie", cookies := [] }

/-! ## SQL schema (`sql_tables.rs::init_table`) -/

/-- `sea_query::ForeignKeyAction`. -/
inductive FkAction
  | Restrict
  | Cascade
  | SetNull
  | SetDefault
  | NoAction
deriving DecidableEq, Repr

/-- One `ForeignKey::create()` clause. -/
structure ForeignKeySpec where
  fkName : String
  fromTable : String
  toTable : String
  fromCol : String
  toCol : String
  onDelete : FkAction
  onUpdate : FkAction
deriving DecidableEq, Repr

/-- `sea_query` column types used by `init_table`. -/
inductive ColType
  | stringLen (n : Nat)
  | integer
  | dateTime
  | binary
deriving DecidableEq, Repr

/-- One `ColumnDef`. -/
structure ColumnSpec where
  colName : String
  colType : ColType
  notNull : Bool
  primaryKey : Bool
  uniqueKey : Bool
deriving DecidableEq, Repr

structure TableSpec where
  tableName : String
  columns : List ColumnSpec
  foreignKeys : List ForeignKeySpec
deriving DecidableEq, Repr

/-- Shorthand for a plain (nullable, non-key) column. -/
def plainCol (name : String) (ty : ColType) : ColumnSpec :=
  { colName := name, colType := ty, notNull := false, primaryKey := false
    uniqueKey := false }

/-- The `users` table created by `init_table` (sql_tables.rs:41-67). -/
def users_table : TableSpec :=
  { tableName := "users"
    columns :=
      [ { colName := "user_id", colType := .stringLen 255, notNull := true
          primaryKey := true, uniqueKey := false },
        { plainCol "email" (.stringLen 255) with notNull := true },
        plainCol "display_name" (.stringLen 255),
        plainCol "first_name" (.stringLen 255),
        plainCol "last_name" (.stringLen 255),
        plainCol "avatar" .binary,
        { plainCol "creation_date" .dateTime with notNull := true },
        { plainCol "password_hash" (.stringLen 255) with notNull := true },
        plainCol "totp_secret" (.stringLen 64),
        plainCol "mfa_type" (.stringLen 64) ]
    foreignKeys := [] }

/-- The `groups` table created by `init_table` (sql_tables.rs:68-87). -/
def groups_table : TableSpec :=
  { tableName := "groups"
    columns :=
      [ { colName := "group_id", colType := .integer, notNull := true
          primaryKey := true, uniqueKey := false },
        { colName := "display_name", colType := .stringLen 255, notNull := true
          primaryKey := false, uniqueKey := true } ]
    foreignKeys := [] }

/-- The `memberships` table created by `init_table` (sql_tables.rs:88-117),
with its two foreign keys, both `ON DELETE CASCADE` and `ON UPDATE CASCADE`. -/
def memberships_table : TableSpec :=
  { tableName := "memberships"
    columns :=
      [ { plainCol "user_id" (.stringLen 255) with notNull := true },
        { plainCol "group_id" .integer with notNull := true } ]
    foreignKeys :=
      [ { fkName := "MembershipUserForeignKey"
          fromTable := "memberships", toTable := "users"
          fromCol := "user_id", toCol := "user_id"
          onDelete := .Cascade, onUpdate := .Cascade },
        { fkName := "MembershipGroupForeignKey"
          fromTable := "memberships", toTable := "groups"
          fromCol := "group_id", toCol := "group_id"
          onDelete := .Cascade, onUpdate := .Cascade } ] }

/-- `init_table` (sql_tables.rs:37-120): the three tables it creates, in
order. -/
def init_table : List TableSpec := [users_table, groups_table, memberships_table]

/-- A database state over the schema: the `users` primary keys, the `groups`
primary keys, and the `memberships` rows. -/
structure DbState where
  users : List String
  groups : List Int
  memberships : List (String × Int)
deriving DecidableEq

/-- Referential integrity of memberships: every row references an existing
user and an existing group. -/
def noOrphans (s : DbState) : Bool :=
  s.memberships.all fun m => decide (m.1 ∈ s.users) && decide (m.2 ∈ s.groups)

/-- Modelled from SQLite foreign-key semantics (the database engine is an
external collaborator, enabled by `PRAGMA foreign_keys = ON`): the effect of
an `ON DELETE` action on the child rows matching a deleted parent. `CASCADE`
deletes the matching rows; the other actions leave them in place (`RESTRICT`
and `NO ACTION` would reject the delete, `SET NULL`/`SET DEFAULT` rewrite the
column — none of which removes the orphan). -/
def applyOnDelete (act : FkAction) (rows : List (String × Int))
    (hits : (String × Int) → Bool) : List (String × Int) :=
  match act with
  | .Cascade => rows.filter fun m => !(hits m)
  | _ => rows

/-- Deleting a user under the schema: remove the primary-key row and apply
the `memberships.user_id` foreign key's `ON DELETE` action, as recorded in
`memberships_table`. -/
def deleteUser (s : DbState) (u : String) : DbState :=
  let act := ((memberships_table.foreignKeys.find?
      (fun fk => fk.fkName == "MembershipUserForeignKey")).map
      (fun fk => fk.onDelete)).getD .NoAction
  { users := s.users.filter (fun x => x != u)
    groups := s.groups
    memberships := applyOnDelete act s.memberships (fun m => m.1 == u) }

/-- Deleting a group under the schema: remove the primary-key row and apply
the `memberships.group_id` foreign key's `ON DELETE` action, as recorded in
`memberships_table`. -/
def deleteGroup (s : DbState) (g : Int) : DbState :=
  let act := ((memberships_table.foreignKeys.find?
      (fun fk => fk.fkName == "MembershipGroupForeignKey")).map
      (fun fk => fk.onDelete)).getD .NoAction
  { users := s.users
    groups := s.groups.filter (fun x => x != g)
    memberships := applyOnDelete act s.memberships (fun m => m.2 == g) }

/-! ## Concrete fixtures used by the witnesses -/

/-- A backend whose calls all succeed: the refresh token checks out, the user
is in `lldap_admin`, and the refresh-token validity window is 129600 s (a day
and a half — deliberately not a whole number of days). -/
def okBackend : Backend :=
  { bind := fun _ _ => .ok ()
    get_user_groups := fun _ => .ok {"lldap_admin"}
    create_refresh_token := fun _ => .ok ("rt", ⟨129600⟩)
    check_token := fun _ _ => .ok true
    delete_refresh_token := fun _ => .ok ()
    blacklist_jwts := fun _ => .ok [5] }

/-- Like `okBackend` but the refresh token does not check out. -/
def staleTokenBackend : Backend :=
  { okBackend with check_token := fun _ _ => .ok false }

/-- Like `okBackend` but deleting the refresh token fails. -/
def deleteFailBackend : Backend :=
  { okBackend with delete_refresh_token := fun _ => .error (.backendError "db down") }

/-- Like `okBackend` but the blacklist query fails. -/
def blacklistFailBackend : Backend :=
  { okBackend with blacklist_jwts := fun _ => .error (.backendError "db down") }

/-- Like `okBackend` but with a validity window of exactly two days. -/
def wholeDayBackend : Backend :=
  { okBackend with create_refresh_token := fun _ => .ok ("rt", ⟨172800⟩) }

/-- A request without a `token` cookie. -/
def reqNoCookie : SvcRequest := { cookies := [], headers := [("accept", "*/*")] }

/-- A request with a well-formed `token` cookie and no other header. -/
def reqGoodCookie : SvcRequest := { cookies := [("token", "abc")], headers := [] }

/-- A request whose `token` cookie value contains a control character, so it
cannot be encoded as a header value. -/
def reqBadCookie : SvcRequest := { cookies := [("token", "a\nb")], headers := [] }

/-- A request carrying both a valid `token` cookie and a client-supplied
`authorization` header. -/
def reqAuthHeader : SvcRequest :=
  { cookies := [("token", "abc")], headers := [("authorization", "Bearer evil")] }

/-- A token for an administrator, minted at instant 0 under key 42. -/
def demoAdminToken : SignedToken := create_jwt 42 "bob" {"lldap_admin"} 0 0

/-- `demoAdminToken` with its signature corrupted. -/
def demoTamperedToken : SignedToken :=
  { demoAdminToken with signature := demoAdminToken.signature + 1 }

/-- A token for a user outside `lldap_admin`. -/
def demoUserToken : SignedToken := create_jwt 42 "bob" {"dev"} 0 0

/-! ## Theorems -/

/-- C1: the authorization guard applies its checks in the order
signature/structure, expiry, revocation, group membership; each failure is a
401 with its distinct reason string ("Invalid JWT", "Expired JWT", "JWT was
logged out", "JWT error: User is not in group lldap_admin"), and the request
proceeds exactly when none of the four checks triggers. -/
theorem guard_checks_order_and_reasons (state : AuthState) (t : SignedToken) (now : Int) :
    (verify_with_key state.jwt_key t = none →
      token_validator state t now = .reject 401 "Invalid JWT") ∧
    (∀ claims, verify_with_key state.jwt_key t = some claims → claims.exp < now →
      token_validator state t now = .reject 401 "Expired JWT") ∧
    (∀ claims, verify_with_key state.jwt_key t = some claims → ¬claims.exp < now →
      jwtHash t ∈ state.jwt_blacklist →
      token_validator state t now = .reject 401 "JWT was logged out") ∧
    (∀ claims, verify_with_key state.jwt_key t = some claims → ¬claims.exp < now →
      jwtHash t ∉ state.jwt_blacklist → "lldap_admin" ∉ claims.groups →
      token_validator state t now =
        .reject 401 "JWT error: User is not in group lldap_admin") ∧
    (token_validator state t now = .proceed ↔
      ∃ claims, verify_with_key state.jwt_key t = some claims ∧ ¬claims.exp < now ∧
        jwtHash t ∉ state.jwt_blacklist ∧ "lldap_admin" ∈ claims.groups) := by
  refine ⟨?_, ?_, ?_, ?_, ?_⟩
  · intro h
    simp [token_validator, h]
  · intro claims h hexp
    simp [token_validator, h, hexp]
  · intro claims h hexp hbl
    simp [token_validator, h, hexp, hbl]
  · intro claims h hexp hbl hg
    simp [token_validator, h, hexp, hbl, hg]
  · constructor
    · intro h
      cases hv : verify_with_key state.jwt_key t with
      | none => simp [token_validator, hv] at h
      | some claims =>
        by_cases hexp : claims.exp < now
        · simp [token_validator, hv, hexp] at h
        · by_cases hbl : jwtHash t ∈ state.jwt_blacklist
          · simp [token_validator, hv, hexp, hbl] at h
          · by_cases hg : "lldap_admin" ∈ claims.groups
            · exact ⟨claims, rfl, hexp, hbl, hg⟩
            · simp [token_validator, hv, hexp, hbl, hg] at h
    · rintro ⟨claims, hv, hexp, hbl, hg⟩
      simp [token_validator, hv, hexp, hbl, hg]

/-- Witness for C1: each of the four rejection reasons and the proceed case,
at concrete tokens and guard states. -/
theorem guard_checks_order_and_reasons_witness :
    token_validator ⟨42, ∅⟩ demoTamperedToken 0 = .reject 401 "Invalid JWT" ∧
    token_validator ⟨42, ∅⟩ demoAdminToken (2 * oneDayNanos) = .reject 401 "Expired JWT" ∧
    token_validator ⟨42, {jwtHash demoAdminToken}⟩ demoAdminToken 0 =
      .reject 401 "JWT was logged out" ∧
    token_validator ⟨42, ∅⟩ demoUserToken 0 =
      .reject 401 "JWT error: User is not in group lldap_admin" ∧
    token_validator ⟨42, ∅⟩ demoAdminToken 0 = .proceed :=
  ⟨(guard_checks_order_and_reasons ⟨42, ∅⟩ demoTamperedToken 0).1 (by decide),
   (guard_checks_order_and_reasons ⟨42, ∅⟩ demoAdminToken (2 * oneDayNanos)).2.1
     demoAdminToken.claims (by decide) (by decide),
   (guard_checks_order_and_reasons ⟨42, {jwtHash demoAdminToken}⟩ demoAdminToken 0).2.2.1
     demoAdminToken.claims (by decide) (by decide) (by decide),
   (guard_checks_order_and_reasons ⟨42, ∅⟩ demoUserToken 0).2.2.2.1
     demoUserToken.claims (by decide) (by decide) (by decide) (by decide),
   (guard_checks_order_and_reasons ⟨42, ∅⟩ demoAdminToken 0).2.2.2.2.mpr
     ⟨demoAdminToken.claims, by decide, by decide, by decide, by decide⟩⟩

/-- C4 counterexample: when the two clock readings of `create_jwt` differ
(here 0 and 1), the expiry is not exactly one day after `issued_at` — the
source computes `exp` from the first `Utc::now()` reading and `iat` from the
second. -/
theorem mint_expiry_not_one_day_after_iat :
    ¬((create_jwt 42 "bob" {"lldap_admin"} 0 1).claims.exp =
      (create_jwt 42 "bob" {"lldap_admin"} 0 1).claims.iat + oneDayNanos) := by
  decide

/-- C4 (amended): `issued_at` equals the second clock reading of the mint and
the expiry equals the first clock reading plus one day; in particular, when
the two readings coincide the expiry is exactly one day after `issued_at`. -/
theorem mint_expiry_one_day_from_first_reading (key : Nat) (user : String)
    (groups : Finset String) (now1 now2 : Int) :
    (create_jwt key user groups now1 now2).claims.iat = now2 ∧
    (create_jwt key user groups now1 now2).claims.exp = now1 + oneDayNanos ∧
    (now1 = now2 →
      (create_jwt key user groups now1 now2).claims.exp =
        (create_jwt key user groups now1 now2).claims.iat + oneDayNanos) := by
  refine ⟨rfl, rfl, ?_⟩
  intro h
  subst h
  rfl

/-- Witness for C4 (amended) with both clock readings at instant 5. -/
theorem mint_expiry_one_day_witness :
    (create_jwt 42 "bob" {"lldap_admin"} 5 5).claims.exp =
      (create_jwt 42 "bob" {"lldap_admin"} 5 5).claims.iat + oneDayNanos :=
  (mint_expiry_one_day_from_first_reading 42 "bob" {"lldap_admin"} 5 5).2.2 rfl

/-- C5: round-trip — verifying a token minted with a subject and group set
under the same key succeeds and yields back exactly that subject and group
set; and at any instant up to the token's expiry, the guard's expiry test
(`exp < now`) does not trigger. -/
theorem verify_mint_roundtrip (key : Nat) (user : String) (groups : Finset String)
    (now1 now2 : Int) :
    (verify_with_key key (create_jwt key user groups now1 now2)).map
      (fun c => (c.user, c.groups)) = some (user, groups) ∧
    ∀ now : Int, now ≤ (create_jwt key user groups now1 now2).claims.exp →
      ¬(create_jwt key user groups now1 now2).claims.exp < now := by
  constructor
  · simp [create_jwt, verify_with_key]
  · intro now h
    exact not_lt.mpr h

/-- Witness for C5 at a concrete key, subject, group set and instant. -/
theorem verify_mint_roundtrip_witness :
    (verify_with_key 42 (create_jwt 42 "bob" {"lldap_admin"} 0 0)).map
      (fun c => (c.user, c.groups)) = some ("bob", {"lldap_admin"}) ∧
    ¬(create_jwt 42 "bob" {"lldap_admin"} 0 0).claims.exp < 5 :=
  ⟨(verify_mint_roundtrip 42 "bob" {"lldap_admin"} 0 0).1,
   (verify_mint_roundtrip 42 "bob" {"lldap_admin"} 0 0).2 5 (by decide)⟩

/-- C2: on a refresh whose cookie parses as `token+username`, a successful
`check_token` on the token part's hash leads to fetching the user's current
groups and minting a fresh token (expiry one day after the mint's first clock
reading), returned in the body and in a `token` cookie — and no
`refresh_token` cookie is set; a false `check_token` yields a 401 "Invalid
refresh token" with no cookie set. -/
theorem refresh_token_exchange (backend : Backend) (key : Nat) (v tok u : String)
    (now1 now2 : Int) (hsplit : split_once v '+' = some (tok, u)) :
    (∀ groups, backend.check_token (defaultHash tok) u = .ok true →
      backend.get_user_groups u = .ok groups →
      get_refresh backend key (some v) now1 now2 =
        ({ status := 200
           body := (create_jwt key u groups now1 now2).as_str
           cookies := [tokenCookie ((create_jwt key u groups now1 now2).as_str)] },
          [.checkToken (defaultHash tok) u, .getUserGroups u]) ∧
      (create_jwt key u groups now1 now2).claims.exp = now1 + oneDayNanos ∧
      ∀ c ∈ [tokenCookie ((create_jwt key u groups now1 now2).as_str)],
        c.name ≠ "refresh_token") ∧
    (backend.check_token (defaultHash tok) u = .ok false →
      get_refresh backend key (some v) now1 now2 =
        ({ status := 401, body := "Invalid refresh token", cookies := [] },
          [.checkToken (defaultHash tok) u])) := by
  constructor
  · intro groups hc hg
    refine ⟨?_, rfl, ?_⟩
    · simp [get_refresh, get_refresh_token_from_cookie, hsplit, hc, hg]
    · intro c hc'
      simp at hc'
      subst hc'
      simp [tokenCookie]
  · intro hc
    simp [get_refresh, get_refresh_token_from_cookie, hsplit, hc,
      error_to_http_response]

/-- Witness for C2: both branches at the concrete cookie `"rt+bob"`. -/
theorem refresh_token_exchange_witness :
    (get_refresh okBackend 42 (some "rt+bob") 0 0 =
      ({ status := 200
         body := (create_jwt 42 "bob" {"lldap_admin"} 0 0).as_str
         cookies := [tokenCookie ((create_jwt 42 "bob" {"lldap_admin"} 0 0).as_str)] },
        [.checkToken (defaultHash "rt") "bob", .getUserGroups "bob"])) ∧
    (get_refresh staleTokenBackend 42 (some "rt+bob") 0 0 =
      ({ status := 401, body := "Invalid refresh token", cookies := [] },
        [.checkToken (defaultHash "rt") "bob"])) :=
  ⟨((refresh_token_exchange okBackend 42 "rt+bob" "rt" "bob" 0 0 (by decide)).1
      {"lldap_admin"} rfl rfl).1,
   (refresh_token_exchange staleTokenBackend 42 "rt+bob" "rt" "bob" 0 0 (by decide)).2 rfl⟩

/-- Inserting the elements of a list into a `Finset` one by one yields exactly
the union of the old members and the list's elements. -/
theorem mem_foldl_insert (l : List Nat) (s : Finset Nat) (x : Nat) :
    x ∈ l.foldl (fun acc jwt => insert jwt acc) s ↔ x ∈ s ∨ x ∈ l := by
  induction l generalizing s with
  | nil => simp
  | cons a rest ih =>
    simp only [List.foldl_cons, ih, Finset.mem_insert, List.mem_cons]
    tauto

/-- C3: a well-formed logout first deletes the refresh token, then fetches
the user's access-token hashes and inserts each into the revocation registry,
responding 200 with both cookies cleared only after both steps succeed; a
failure of either backend step yields the error response with no cookie
cleared and leaves the registry unchanged. -/
theorem logout_blacklists_then_clears (backend : Backend) (bl : Finset Nat)
    (v tok u : String) (hsplit : split_once v '+' = some (tok, u)) :
    (∀ jwts, backend.delete_refresh_token (defaultHash tok) = .ok () →
      backend.blacklist_jwts u = .ok jwts →
      (post_logout backend bl (some v)).1 =
        { status := 200, body := ""
          cookies := [clearedCookie "token" "/api", clearedCookie "refresh_token" "/auth"] } ∧
      (post_logout backend bl (some v)).2.2 =
        [.deleteRefreshToken (defaultHash tok), .blacklistJwts u] ∧
      ∀ x, x ∈ (post_logout backend bl (some v)).2.1 ↔ x ∈ bl ∨ x ∈ jwts) ∧
    (∀ e, backend.delete_refresh_token (defaultHash tok) = .error e →
      post_logout backend bl (some v) =
        (error_to_http_response e, bl, [.deleteRefreshToken (defaultHash tok)]) ∧
      (error_to_http_response e).cookies = []) ∧
    (∀ e, backend.delete_refresh_token (defaultHash tok) = .ok () →
      backend.blacklist_jwts u = .error e →
      post_logout backend bl (some v) =
        (error_to_http_response e, bl,
          [.deleteRefreshToken (defaultHash tok), .blacklistJwts u]) ∧
      (error_to_http_response e).cookies = []) := by
  refine ⟨?_, ?_, ?_⟩
  · intro jwts hdel hbl
    refine ⟨?_, ?_, ?_⟩
    · simp [post_logout, get_refresh_token_from_cookie, hsplit, hdel, hbl]
    · simp [post_logout, get_refresh_token_from_cookie, hsplit, hdel, hbl]
    · intro x
      simp [post_logout, get_refresh_token_from_cookie, hsplit, hdel, hbl,
        mem_foldl_insert]
  · intro e hdel
    refine ⟨?_, ?_⟩
    · simp [post_logout, get_refresh_token_from_cookie, hsplit, hdel]
    · cases e <;> rfl
  · intro e hdel hbl
    refine ⟨?_, ?_⟩
    · simp [post_logout, get_refresh_token_from_cookie, hsplit, hdel, hbl]
    · cases e <;> rfl

/-- Witness for C3: the success path and both failure paths at the concrete
cookie `"rt+bob"`. -/
theorem logout_blacklists_then_clears_witness :
    ((post_logout okBackend ∅ (some "rt+bob")).1 =
      { status := 200, body := ""
        cookies := [clearedCookie "token" "/api", clearedCookie "refresh_token" "/auth"] } ∧
     (5 ∈ (post_logout okBackend ∅ (some "rt+bob")).2.1 ↔ 5 ∈ (∅ : Finset Nat) ∨ 5 ∈ [5])) ∧
    post_logout deleteFailBackend ∅ (some "rt+bob") =
      (error_to_http_response (.backendError "db down"), ∅,
        [.deleteRefreshToken (defaultHash "rt")]) ∧
    post_logout blacklistFailBackend ∅ (some "rt+bob") =
      (error_to_http_response (.backendError "db down"), ∅,
        [.deleteRefreshToken (defaultHash "rt"), .blacklistJwts "bob"]) :=
  ⟨⟨((logout_blacklists_then_clears okBackend ∅ "rt+bob" "rt" "bob" (by decide)).1
      [5] rfl rfl).1,
    ((logout_blacklists_then_clears okBackend ∅ "rt+bob" "rt" "bob" (by decide)).1
      [5] rfl rfl).2.2 5⟩,
   ((logout_blacklists_then_clears deleteFailBackend ∅ "rt+bob" "rt" "bob" (by decide)).2.1
      (.backendError "db down") rfl).1,
   ((logout_blacklists_then_clears blacklistFailBackend ∅ "rt+bob" "rt" "bob" (by decide)).2.2
      (.backendError "db down") rfl rfl).1⟩

/-- C6: the cookie-to-header translator forwards a cookieless request
unchanged; with a `token` cookie whose `Bearer <value>` form is a valid
header value it sets the `authorization` header to that form and forwards;
with a cookie that cannot be encoded it short-circuits with 400 "Invalid
token cookie". -/
theorem cookie_to_header_translation (req : SvcRequest) :
    (req.cookie "token" = none → cookieToHeaderCall req = .forward req) ∧
    (∀ v, req.cookie "token" = some v →
      isValidHeaderValue ("Bearer " ++ v) = true →
      cookieToHeaderCall req =
        .forward { req with
          headers := headersInsert req.headers "authorization" ("Bearer " ++ v) } ∧
      headerGet (headersInsert req.headers "authorization" ("Bearer " ++ v))
        "authorization" = some ("Bearer " ++ v)) ∧
    (∀ v, req.cookie "token" = some v →
      isValidHeaderValue ("Bearer " ++ v) = false →
      cookieToHeaderCall req =
        .shortCircuit { status := 400, body := "Invalid token cookie", cookies := [] }) := by
  refine ⟨?_, ?_, ?_⟩
  · intro h
    simp [cookieToHeaderCall, h]
  · intro v hc hvalid
    constructor
    · simp [cookieToHeaderCall, hc, hvalid]
    · simp [headerGet, headersInsert, List.find?]
  · intro v hc hvalid
    simp [cookieToHeaderCall, hc, hvalid]

/-- Witness for C6: the three translator behaviors at concrete requests. -/
theorem cookie_to_header_translation_witness :
    cookieToHeaderCall reqNoCookie = .forward reqNoCookie ∧
    cookieToHeaderCall reqGoodCookie =
      .forward { reqGoodCookie with
        headers := headersInsert reqGoodCookie.headers "authorization" "Bearer abc" } ∧
    cookieToHeaderCall reqBadCookie =
      .shortCircuit { status := 400, body := "Invalid token cookie", cookies := [] } :=
  ⟨(cookie_to_header_translation reqNoCookie).1 rfl,
   ((cookie_to_header_translation reqGoodCookie).2.1 "abc" rfl (by decide)).1,
   (cookie_to_header_translation reqBadCookie).2.2 "a\nb" rfl (by decide)⟩

/-- C9: when a request carries both a valid `token` cookie and a
client-supplied `authorization` header, the translator forwards with the
`authorization` header replaced by `Bearer <cookie value>` — every remaining
`authorization` entry holds the cookie-derived value, so the cookie wins. -/
theorem cookie_overrides_authorization_header (req : SvcRequest) (v w : String)
    (hc : req.cookie "token" = some v)
    (hvalid : isValidHeaderValue ("Bearer " ++ v) = true)
    (_hw : headerGet req.headers "authorization" = some w) :
    ∃ req2, cookieToHeaderCall req = .forward req2 ∧
      headerGet req2.headers "authorization" = some ("Bearer " ++ v) ∧
      ∀ x, ("authorization", x) ∈ req2.headers → x = "Bearer " ++ v := by
  refine ⟨{ req with
      headers := headersInsert req.headers "authorization" ("Bearer " ++ v) }, ?_, ?_, ?_⟩
  · simp [cookieToHeaderCall, hc, hvalid]
  · simp [headerGet, headersInsert, List.find?]
  · intro x hx
    simp only [headersInsert, List.mem_cons, List.mem_filter] at hx
    rcases hx with h | ⟨_, hne⟩
    · exact (Prod.mk.injEq _ _ _ _ ▸ h).2
    · simp at hne

/-- Witness for C9: the client-sent `Bearer evil` header is replaced by the
cookie-derived value. -/
theorem cookie_overrides_authorization_header_witness :
    ∃ req2, cookieToHeaderCall reqAuthHeader = .forward req2 ∧
      headerGet req2.headers "authorization" = some "Bearer abc" ∧
      ∀ x, ("authorization", x) ∈ req2.headers → x = "Bearer abc" :=
  cookie_overrides_authorization_header reqAuthHeader "abc" "Bearer evil" rfl
    (by decide) rfl

/-- `str::split_once` finds nothing when the delimiter does not occur. -/
theorem splitOnceAux_of_not_mem (d : Char) :
    ∀ (l acc : List Char), d ∉ l → splitOnceAux d l acc = none
  | [], _, _ => rfl
  | c :: rest, acc, h => by
    have hcd : ¬c = d := fun hh => h (hh ▸ List.mem_cons_self c rest)
    simp only [splitOnceAux, if_neg hcd]
    exact splitOnceAux_of_not_mem d rest (c :: acc) fun hm => h (List.mem_cons_of_mem c hm)

theorem split_once_eq_none (s : String) (h : '+' ∉ s.toList) :
    split_once s '+' = none := by
  have h2 : splitOnceAux '+' s.data [] = none := splitOnceAux_of_not_mem '+' s.toList [] h
  simp [split_once, h2]

/-- C7: at refresh or logout, an absent `refresh_token` cookie yields an
immediate 401 "Missing refresh token" and a cookie value without a `+`
delimiter an immediate 401 "Invalid refresh token"; in both cases the
recorded backend-call trace is empty. -/
theorem missing_or_malformed_cookie_no_backend_calls (backend : Backend)
    (key : Nat) (bl : Finset Nat) (v : String) (now1 now2 : Int) :
    (get_refresh backend key none now1 now2 =
      ({ status := 401, body := "Missing refresh token", cookies := [] }, []) ∧
     post_logout backend bl none =
      ({ status := 401, body := "Missing refresh token", cookies := [] }, bl, [])) ∧
    ('+' ∉ v.toList →
      get_refresh backend key (some v) now1 now2 =
        ({ status := 401, body := "Invalid refresh token", cookies := [] }, []) ∧
      post_logout backend bl (some v) =
        ({ status := 401, body := "Invalid refresh token", cookies := [] }, bl, [])) := by
  constructor
  · exact ⟨by simp [get_refresh, get_refresh_token_from_cookie],
      by simp [post_logout, get_refresh_token_from_cookie]⟩
  · intro h
    have hs := split_once_eq_none v h
    exact ⟨by simp [get_refresh, get_refresh_token_from_cookie, hs],
      by simp [post_logout, get_refresh_token_from_cookie, hs]⟩

/-- Witness for C7: missing cookie and the delimiter-free value `"abc"`. -/
theorem missing_or_malformed_cookie_witness :
    (get_refresh okBackend 42 none 0 0 =
      ({ status := 401, body := "Missing refresh token", cookies := [] }, []) ∧
     post_logout okBackend ∅ none =
      ({ status := 401, body := "Missing refresh token", cookies := [] }, ∅, [])) ∧
    (get_refresh okBackend 42 (some "abc") 0 0 =
      ({ status := 401, body := "Invalid refresh token", cookies := [] }, []) ∧
     post_logout okBackend ∅ (some "abc") =
      ({ status := 401, body := "Invalid refresh token", cookies := [] }, ∅, [])) :=
  ⟨(missing_or_malformed_cookie_no_backend_calls okBackend 42 ∅ "abc" 0 0).1,
   (missing_or_malformed_cookie_no_backend_calls okBackend 42 ∅ "abc" 0 0).2 (by decide)⟩

/-- C8 counterexample: with a backend-issued validity window of 129600 s
(a day and a half), the successful authorize response sets the
`refresh_token` cookie's max-age to 86400 s — `max_age.num_days().days()`
truncates the window to whole days, so the cookie max-age differs from the
window. -/
theorem authorize_refresh_cookie_max_age_truncated :
    okBackend.create_refresh_token "bob" = .ok ("rt", ⟨129600⟩) ∧
    ((post_authorize okBackend 42 "bob" "pw" 0 0).1.cookies.find?
      (fun c => c.name == "refresh_token")).map (fun c => c.maxAgeSeconds) =
      some 86400 ∧
    (86400 : Int) ≠ 129600 := by
  refine ⟨rfl, by decide, by decide⟩

/-- C8 (amended): on every successful authorize, the `refresh_token` cookie's
max-age equals the backend-issued validity window truncated to a whole number
of days (`num_days` whole days, re-expressed in seconds); it equals the
window itself exactly when the window is a whole number of days. -/
theorem authorize_refresh_cookie_max_age (backend : Backend) (key : Nat)
    (name password : String) (now1 now2 : Int) (groups : Finset String)
    (rt : String) (w : ChronoDuration)
    (hbind : backend.bind name password = .ok ())
    (hg : backend.get_user_groups name = .ok groups)
    (hrt : backend.create_refresh_token name = .ok (rt, w)) :
    ((post_authorize backend key name password now1 now2).1.cookies.find?
      (fun c => c.name == "refresh_token")).map (fun c => c.maxAgeSeconds) =
      some (w.num_days * 86400) ∧
    ∀ d : Int, w.secs = d * 86400 → w.num_days * 86400 = w.secs := by
  constructor
  · simp [post_authorize, hbind, hg, hrt, tokenCookie, List.find?]
  · intro d hd
    simp [ChronoDuration.num_days, hd, Int.mul_tdiv_cancel d (by norm_num : (86400 : Int) ≠ 0)]

/-- Witness for C8 (amended): a whole-two-day window yields a max-age of
exactly that window. -/
theorem authorize_refresh_cookie_max_age_witness :
    ((post_authorize wholeDayBackend 42 "bob" "pw" 0 0).1.cookies.find?
      (fun c => c.name == "refresh_token")).map (fun c => c.maxAgeSeconds) =
      some ((ChronoDuration.mk 172800).num_days * 86400) ∧
    (ChronoDuration.mk 172800).num_days * 86400 = (172800 : Int) :=
  ⟨(authorize_refresh_cookie_max_age wholeDayBackend 42 "bob" "pw" 0 0
      {"lldap_admin"} "rt" ⟨172800⟩ rfl rfl rfl).1,
   (authorize_refresh_cookie_max_age wholeDayBackend 42 "bob" "pw" 0 0
      {"lldap_admin"} "rt" ⟨172800⟩ rfl rfl rfl).2 2 (by decide)⟩

/-- C10: the `memberships` table created by `init_table` has foreign keys to
`users` and `groups`, both `ON DELETE CASCADE` and `ON UPDATE CASCADE`, so
deleting a user or a group removes every membership row referencing it and
referential integrity (no orphaned membership row) is preserved. -/
theorem memberships_cascade_no_orphans (s : DbState) (u : String) (g : Int) :
    (∀ fk ∈ memberships_table.foreignKeys,
      fk.onDelete = FkAction.Cascade ∧ fk.onUpdate = FkAction.Cascade) ∧
    memberships_table.foreignKeys.map (fun fk => (fk.toTable, fk.fromCol)) =
      [("users", "user_id"), ("groups", "group_id")] ∧
    memberships_table ∈ init_table ∧
    (deleteUser s u).memberships.all (fun m => m.1 != u) = true ∧
    (deleteGroup s g).memberships.all (fun m => m.2 != g) = true ∧
    (noOrphans s = true → noOrphans (deleteUser s u) = true) ∧
    (noOrphans s = true → noOrphans (deleteGroup s g) = true) := by
  refine ⟨by decide, by decide, by decide, ?_, ?_, ?_, ?_⟩
  · rw [List.all_eq_true]
    intro m hm
    rw [show (deleteUser s u).memberships =
        s.memberships.filter (fun m => !(m.1 == u)) from rfl, List.mem_filter] at hm
    simpa using hm.2
  · rw [List.all_eq_true]
    intro m hm
    rw [show (deleteGroup s g).memberships =
        s.memberships.filter (fun m => !(m.2 == g)) from rfl, List.mem_filter] at hm
    simpa using hm.2
  · intro h
    rw [noOrphans, List.all_eq_true] at h ⊢
    intro m hm
    rw [show (deleteUser s u).memberships =
        s.memberships.filter (fun m => !(m.1 == u)) from rfl, List.mem_filter] at hm
    have hmem := h m hm.1
    simp only [Bool.and_eq_true, decide_eq_true_eq] at hmem ⊢
    refine ⟨?_, hmem.2⟩
    show m.1 ∈ (deleteUser s u).users
    rw [show (deleteUser s u).users = s.users.filter (fun x => x != u) from rfl,
      List.mem_filter]
    exact ⟨hmem.1, hm.2⟩
  · intro h
    rw [noOrphans, List.all_eq_true] at h ⊢
    intro m hm
    rw [show (deleteGroup s g).memberships =
        s.memberships.filter (fun m => !(m.2 == g)) from rfl, List.mem_filter] at hm
    have hmem := h m hm.1
    simp only [Bool.and_eq_true, decide_eq_true_eq] at hmem ⊢
    refine ⟨hmem.1, ?_⟩
    show m.2 ∈ (deleteGroup s g).groups
    rw [show (deleteGroup s g).groups = s.groups.filter (fun x => x != g) from rfl,
      List.mem_filter]
    exact ⟨hmem.2, hm.2⟩

/-- Witness for C10 at a concrete two-user, two-group database state. -/
theorem memberships_cascade_no_orphans_witness :
    (deleteUser ⟨["alice", "bob"], [1, 2], [("alice", 1), ("bob", 2)]⟩ "bob").memberships.all
      (fun m => m.1 != "bob") = true ∧
    noOrphans (deleteUser ⟨["alice", "bob"], [1, 2], [("alice", 1), ("bob", 2)]⟩ "bob") = true ∧
    noOrphans (deleteGroup ⟨["alice", "bob"], [1, 2], [("alice", 1), ("bob", 2)]⟩ 2) = true :=
  ⟨(memberships_cascade_no_orphans ⟨["alice", "bob"], [1, 2], [("alice", 1), ("bob", 2)]⟩
      "bob" 2).2.2.2.1,
   (memberships_cascade_no_orphans ⟨["alice", "bob"], [1, 2], [("alice", 1), ("bob", 2)]⟩
      "bob" 2).2.2.2.2.2.1 (by decide),
   (memberships_cascade_no_orphans ⟨["alice", "bob"], [1, 2], [("alice", 1), ("bob", 2)]⟩
      "bob" 2).2.2.2.2.2.2 (by decide)⟩

end Lldap
